import Mathlib

/-! Verification of the DocStratum schema layer (`docstratum/schema/constants.py`
and `docstratum/schema/diagnostics.py`): canonical section vocabulary, alias
resolution, canonical ordering, token-zone classification, the anti-pattern
registry and the diagnostic-code registry.

The Python string primitives used by the code (`str.lower`, `str.strip`,
slicing, `str.split`, `str.startswith`, `int(...)` on digit strings) are
embedded as functions over `String` via its underlying character list, so
that every definition evaluates inside the kernel.  All inputs in this
development are ASCII, on which these models agree with Python. -/

namespace DocStratum

/-- Model of Python `str.lower()` (ASCII inputs). -/
def pyLower (s : String) : String := ⟨s.data.map Char.toLower⟩

/-- Model of Python `str.strip()` with no argument: remove leading and
trailing whitespace. -/
def pyStrip (s : String) : String :=
  ⟨((s.data.dropWhile Char.isWhitespace).reverse.dropWhile Char.isWhitespace).reverse⟩

/-- Model of the Python slice `s[n:]`. -/
def pyDrop (s : String) (n : Nat) : String := ⟨s.data.drop n⟩

/-- Model of Python `s.split(sep)` for a one-character separator. -/
def pySplit (s : String) (sep : Char) : List String :=
  (s.data.splitOn sep).map fun l => (⟨l⟩ : String)

/-- Model of Python `s.startswith(p)`. -/
def pyStartsWith (s p : String) : Bool := p.data.isPrefixOf s.data

/-- Value of a digit-only string, most significant digit first. -/
def digitsToNat (cs : List Char) : Nat :=
  cs.foldl (fun acc c => acc * 10 + (c.toNat - '0'.toNat)) 0

/-- Model of Python `int(s)` restricted to the unsigned digit strings that
occur in this code base; `none` models the `ValueError` branch. -/
def pyInt? (s : String) : Option Nat :=
  if s.data ≠ [] ∧ s.data.all Char.isDigit then some (digitsToNat s.data) else none

/-! ## Canonical section names (`constants.py`) -/

/-- The 11 standard section names (`CanonicalSectionName` in `constants.py`),
a `StrEnum`: each member carries a display string. -/
inductive CanonicalSectionName
  | MASTER_INDEX
  | LLM_INSTRUCTIONS
  | GETTING_STARTED
  | CORE_CONCEPTS
  | API_REFERENCE
  | EXAMPLES
  | CONFIGURATION
  | ADVANCED_TOPICS
  | TROUBLESHOOTING
  | FAQ
  | OPTIONAL
deriving DecidableEq, Fintype

namespace CanonicalSectionName

/-- The `StrEnum` value of each member. -/
def value : CanonicalSectionName → String
  | .MASTER_INDEX => "Master Index"
  | .LLM_INSTRUCTIONS => "LLM Instructions"
  | .GETTING_STARTED => "Getting Started"
  | .CORE_CONCEPTS => "Core Concepts"
  | .API_REFERENCE => "API Reference"
  | .EXAMPLES => "Examples"
  | .CONFIGURATION => "Configuration"
  | .ADVANCED_TOPICS => "Advanced Topics"
  | .TROUBLESHOOTING => "Troubleshooting"
  | .FAQ => "FAQ"
  | .OPTIONAL => "Optional"

/-- The members in declaration order (Python enum iteration order). -/
def members : List CanonicalSectionName :=
  [.MASTER_INDEX, .LLM_INSTRUCTIONS, .GETTING_STARTED, .CORE_CONCEPTS,
   .API_REFERENCE, .EXAMPLES, .CONFIGURATION, .ADVANCED_TOPICS,
   .TROUBLESHOOTING, .FAQ, .OPTIONAL]

end CanonicalSectionName

/-- `SECTION_NAME_ALIASES` from `constants.py`: mapping of common aliases to
canonical names, in declaration order. -/
def SECTION_NAME_ALIASES : List (String × CanonicalSectionName) :=
  [("table of contents", .MASTER_INDEX),
   ("toc", .MASTER_INDEX),
   ("index", .MASTER_INDEX),
   ("docs", .MASTER_INDEX),
   ("documentation", .MASTER_INDEX),
   ("instructions", .LLM_INSTRUCTIONS),
   ("agent instructions", .LLM_INSTRUCTIONS),
   ("quickstart", .GETTING_STARTED),
   ("quick start", .GETTING_STARTED),
   ("installation", .GETTING_STARTED),
   ("setup", .GETTING_STARTED),
   ("concepts", .CORE_CONCEPTS),
   ("key concepts", .CORE_CONCEPTS),
   ("fundamentals", .CORE_CONCEPTS),
   ("api", .API_REFERENCE),
   ("reference", .API_REFERENCE),
   ("endpoints", .API_REFERENCE),
   ("usage", .EXAMPLES),
   ("use cases", .EXAMPLES),
   ("tutorials", .EXAMPLES),
   ("recipes", .EXAMPLES),
   ("config", .CONFIGURATION),
   ("settings", .CONFIGURATION),
   ("options", .CONFIGURATION),
   ("advanced", .ADVANCED_TOPICS),
   ("internals", .ADVANCED_TOPICS),
   ("debugging", .TROUBLESHOOTING),
   ("common issues", .TROUBLESHOOTING),
   ("known issues", .TROUBLESHOOTING),
   ("frequently asked questions", .FAQ),
   ("supplementary", .OPTIONAL),
   ("appendix", .OPTIONAL),
   ("extras", .OPTIONAL)]

/-- `CANONICAL_SECTION_ORDER` from `constants.py`: position of each section in
the 10-step sequence; `OPTIONAL` is intentionally absent. -/
def CANONICAL_SECTION_ORDER : List (CanonicalSectionName × Nat) :=
  [(.MASTER_INDEX, 1),
   (.LLM_INSTRUCTIONS, 2),
   (.GETTING_STARTED, 3),
   (.CORE_CONCEPTS, 4),
   (.API_REFERENCE, 5),
   (.EXAMPLES, 6),
   (.CONFIGURATION, 7),
   (.ADVANCED_TOPICS, 8),
   (.TROUBLESHOOTING, 9),
   (.FAQ, 10)]

/-- Dictionary lookup in `SECTION_NAME_ALIASES`. -/
def lookupAlias (n : String) : Option CanonicalSectionName :=
  SECTION_NAME_ALIASES.lookup n

/-- Dictionary lookup in `CANONICAL_SECTION_ORDER` (the spec's
`orderOf(section) -> rank | None`). -/
def orderOf (c : CanonicalSectionName) : Option Nat :=
  CANONICAL_SECTION_ORDER.lookup c

/-- Modelled from the spec: the display-value fallback of `resolve` — the
first canonical section whose display value equals the (already lower-cased)
name case-insensitively.  The function `resolve` itself is not in the
repository sources; only its tables are. -/
def displayMatch (n : String) : Option CanonicalSectionName :=
  CanonicalSectionName.members.find? fun c => pyLower c.value = n

/-- Modelled from the spec: `resolve` on an already normalized (lower-cased
and trimmed) name — exact match against the alias table first, then the
display-value comparison, otherwise `none` ("Unresolved"). -/
def resolveNorm (n : String) : Option CanonicalSectionName :=
  match lookupAlias n with
  | some c => some c
  | none => displayMatch n

/-- Modelled from the spec: `resolve(rawName) -> CanonicalSection | Unresolved`
(`none` models Unresolved): lower-case and trim the raw name, then resolve the
normalized name alias-first. -/
def resolve (s : String) : Option CanonicalSectionName :=
  resolveNorm (pyStrip (pyLower s))

/-! ## Token budget zones (`constants.py`) -/

def TOKEN_ZONE_OPTIMAL : Nat := 20000

def TOKEN_ZONE_GOOD : Nat := 50000

def TOKEN_ZONE_DEGRADATION : Nat := 100000

def TOKEN_ZONE_ANTI_PATTERN : Nat := 500000

/-- Modelled from the spec: the escalation zones of
`zoneFor(tokenCount) -> Zone`; the function itself is not in the repository
sources, only the four thresholds are. -/
inductive Zone
  | Optimal
  | Good
  | Degradation
  | AntiPattern
  | BeyondAllWindows
deriving DecidableEq, Fintype

/-- Modelled from the spec: `zoneFor(tokenCount)` — boundary classification
against the four absolute thresholds: count < optimalMax → Optimal;
< goodMax → Good; < degradationMax → Degradation; < antiPatternMax →
AntiPattern; else BeyondAllWindows. -/
def zoneFor (n : Nat) : Zone :=
  if n < TOKEN_ZONE_OPTIMAL then .Optimal
  else if n < TOKEN_ZONE_GOOD then .Good
  else if n < TOKEN_ZONE_DEGRADATION then .Degradation
  else if n < TOKEN_ZONE_ANTI_PATTERN then .AntiPattern
  else .BeyondAllWindows

/-! ## Sequence validation (spec §4.1) -/

/-- Modelled from the spec: the ranks of the non-Optional sections of a
sequence, in document order (`validateSequence` ignores Optional entries). -/
def sequenceRanks (l : List CanonicalSectionName) : List Nat :=
  (l.filter fun c => c ≠ .OPTIONAL).filterMap orderOf

/-- Is a list of ranks strictly increasing between consecutive entries? -/
def strictlyIncreasingB : List Nat → Bool
  | [] => true
  | [_] => true
  | a :: b :: t => decide (a < b) && strictlyIncreasingB (b :: t)

/-- Modelled from the spec: `validateSequence(sections) -> Violation?` —
`true` means a violation is flagged: the ranks of consecutive non-Optional
sections are not strictly increasing. -/
def validateSequence (l : List CanonicalSectionName) : Bool :=
  !(strictlyIncreasingB (sequenceRanks l))

/-! ## Anti-pattern registry (`constants.py`) -/

/-- Anti-pattern severity categories (`AntiPatternCategory` in `constants.py`). -/
inductive AntiPatternCategory
  | CRITICAL
  | STRUCTURAL
  | CONTENT
  | STRATEGIC
deriving DecidableEq, Fintype

/-- The 22 anti-patterns (`AntiPatternID` in `constants.py`), a `StrEnum`. -/
inductive AntiPatternID
  | AP_CRIT_001
  | AP_CRIT_002
  | AP_CRIT_003
  | AP_CRIT_004
  | AP_STRUCT_001
  | AP_STRUCT_002
  | AP_STRUCT_003
  | AP_STRUCT_004
  | AP_STRUCT_005
  | AP_CONT_001
  | AP_CONT_002
  | AP_CONT_003
  | AP_CONT_004
  | AP_CONT_005
  | AP_CONT_006
  | AP_CONT_007
  | AP_CONT_008
  | AP_CONT_009
  | AP_STRAT_001
  | AP_STRAT_002
  | AP_STRAT_003
  | AP_STRAT_004
deriving DecidableEq, Fintype

/-- The `StrEnum` value of each `AntiPatternID` member. -/
def AntiPatternID.value : AntiPatternID → String
  | .AP_CRIT_001 => "AP-CRIT-001"
  | .AP_CRIT_002 => "AP-CRIT-002"
  | .AP_CRIT_003 => "AP-CRIT-003"
  | .AP_CRIT_004 => "AP-CRIT-004"
  | .AP_STRUCT_001 => "AP-STRUCT-001"
  | .AP_STRUCT_002 => "AP-STRUCT-002"
  | .AP_STRUCT_003 => "AP-STRUCT-003"
  | .AP_STRUCT_004 => "AP-STRUCT-004"
  | .AP_STRUCT_005 => "AP-STRUCT-005"
  | .AP_CONT_001 => "AP-CONT-001"
  | .AP_CONT_002 => "AP-CONT-002"
  | .AP_CONT_003 => "AP-CONT-003"
  | .AP_CONT_004 => "AP-CONT-004"
  | .AP_CONT_005 => "AP-CONT-005"
  | .AP_CONT_006 => "AP-CONT-006"
  | .AP_CONT_007 => "AP-CONT-007"
  | .AP_CONT_008 => "AP-CONT-008"
  | .AP_CONT_009 => "AP-CONT-009"
  | .AP_STRAT_001 => "AP-STRAT-001"
  | .AP_STRAT_002 => "AP-STRAT-002"
  | .AP_STRAT_003 => "AP-STRAT-003"
  | .AP_STRAT_004 => "AP-STRAT-004"

/-- Registry entry for an anti-pattern (`AntiPatternEntry` in `constants.py`). -/
structure AntiPatternEntry where
  id : AntiPatternID
  name : String
  category : AntiPatternCategory
  check_id : String
  description : String
deriving DecidableEq

/-- `ANTI_PATTERN_REGISTRY` from `constants.py`, in declaration order. -/
def ANTI_PATTERN_REGISTRY : List AntiPatternEntry :=
  [⟨.AP_CRIT_001, "Ghost File", .CRITICAL, "CHECK-001",
    "Empty or near-empty file that exists but provides no value"⟩,
   ⟨.AP_CRIT_002, "Structure Chaos", .CRITICAL, "CHECK-002",
    "File lacks recognizable Markdown structure (no headers, no sections)"⟩,
   ⟨.AP_CRIT_003, "Encoding Disaster", .CRITICAL, "CHECK-003",
    "Non-UTF-8 encoding or mixed line endings that break parsers"⟩,
   ⟨.AP_CRIT_004, "Link Void", .CRITICAL, "CHECK-004",
    "All or most links are broken, empty, or malformed"⟩,
   ⟨.AP_STRUCT_001, "Sitemap Dump", .STRUCTURAL, "CHECK-005",
    "Entire sitemap dumped as flat link list with no organization"⟩,
   ⟨.AP_STRUCT_002, "Orphaned Sections", .STRUCTURAL, "CHECK-006",
    "Sections with headers but no links or content"⟩,
   ⟨.AP_STRUCT_003, "Duplicate Identity", .STRUCTURAL, "CHECK-007",
    "Multiple sections with identical or near-identical names"⟩,
   ⟨.AP_STRUCT_004, "Section Shuffle", .STRUCTURAL, "CHECK-008",
    "Sections in illogical order (e.g., Advanced before Getting Started)"⟩,
   ⟨.AP_STRUCT_005, "Naming Nebula", .STRUCTURAL, "CHECK-009",
    "Section names that are vague, inconsistent, or non-standard"⟩,
   ⟨.AP_CONT_001, "Copy-Paste Plague", .CONTENT, "CHECK-010",
    "Large blocks of content duplicated from other sources without curation"⟩,
   ⟨.AP_CONT_002, "Blank Canvas", .CONTENT, "CHECK-011",
    "Sections with placeholder text or no meaningful content"⟩,
   ⟨.AP_CONT_003, "Jargon Jungle", .CONTENT, "CHECK-012",
    "Heavy use of domain jargon without definitions"⟩,
   ⟨.AP_CONT_004, "Link Desert", .CONTENT, "CHECK-013",
    "Links without descriptions (bare URL lists)"⟩,
   ⟨.AP_CONT_005, "Outdated Oracle", .CONTENT, "CHECK-014",
    "Content references deprecated or outdated information"⟩,
   ⟨.AP_CONT_006, "Example Void", .CONTENT, "CHECK-015",
    "No code examples despite being a technical project"⟩,
   ⟨.AP_CONT_007, "Formulaic Description", .CONTENT, "CHECK-019",
    "Auto-generated descriptions with identical patterns (Mintlify risk)"⟩,
   ⟨.AP_CONT_008, "Silent Agent", .CONTENT, "CHECK-020",
    "No LLM-facing guidance despite being an AI documentation file"⟩,
   ⟨.AP_CONT_009, "Versionless Drift", .CONTENT, "CHECK-021",
    "No version or date metadata, impossible to assess freshness"⟩,
   ⟨.AP_STRAT_001, "Automation Obsession", .STRATEGIC, "CHECK-016",
    "Fully auto-generated with no human curation or review"⟩,
   ⟨.AP_STRAT_002, "Monolith Monster", .STRATEGIC, "CHECK-017",
    "Single file exceeding 100K tokens with no decomposition"⟩,
   ⟨.AP_STRAT_003, "Meta-Documentation Spiral", .STRATEGIC, "CHECK-018",
    "File documents itself or the llms.txt standard rather than the project"⟩,
   ⟨.AP_STRAT_004, "Preference Trap", .STRATEGIC, "CHECK-022",
    "Content crafted to manipulate LLM behavior (trust laundering)"⟩]

/-! ## Diagnostic registry (`diagnostics.py`) -/

/-- Diagnostic severity levels (`Severity` in `diagnostics.py`). -/
inductive Severity
  | ERROR
  | WARNING
  | INFO
deriving DecidableEq, Fintype

/-- The 26-member `DiagnosticCode` enum from `diagnostics.py`, in
declaration order. -/
inductive DiagnosticCode
  | E001_NO_H1_TITLE
  | E002_MULTIPLE_H1
  | E003_INVALID_ENCODING
  | E004_INVALID_LINE_ENDINGS
  | E005_INVALID_MARKDOWN
  | E006_BROKEN_LINKS
  | E007_EMPTY_FILE
  | E008_EXCEEDS_SIZE_LIMIT
  | W001_MISSING_BLOCKQUOTE
  | W002_NON_CANONICAL_SECTION_NAME
  | W003_LINK_MISSING_DESCRIPTION
  | W004_NO_CODE_EXAMPLES
  | W005_CODE_NO_LANGUAGE
  | W006_FORMULAIC_DESCRIPTIONS
  | W007_MISSING_VERSION_METADATA
  | W008_SECTION_ORDER_NON_CANONICAL
  | W009_NO_MASTER_INDEX
  | W010_TOKEN_BUDGET_EXCEEDED
  | W011_EMPTY_SECTIONS
  | I001_NO_LLM_INSTRUCTIONS
  | I002_NO_CONCEPT_DEFINITIONS
  | I003_NO_FEW_SHOT_EXAMPLES
  | I004_RELATIVE_URLS_DETECTED
  | I005_TYPE_2_FULL_DETECTED
  | I006_OPTIONAL_SECTIONS_UNMARKED
  | I007_JARGON_WITHOUT_DEFINITION
deriving DecidableEq, Fintype

namespace DiagnosticCode

/-- The `value` of each member: the code identifier string. -/
def value : DiagnosticCode → String
  | .E001_NO_H1_TITLE => "E001"
  | .E002_MULTIPLE_H1 => "E002"
  | .E003_INVALID_ENCODING => "E003"
  | .E004_INVALID_LINE_ENDINGS => "E004"
  | .E005_INVALID_MARKDOWN => "E005"
  | .E006_BROKEN_LINKS => "E006"
  | .E007_EMPTY_FILE => "E007"
  | .E008_EXCEEDS_SIZE_LIMIT => "E008"
  | .W001_MISSING_BLOCKQUOTE => "W001"
  | .W002_NON_CANONICAL_SECTION_NAME => "W002"
  | .W003_LINK_MISSING_DESCRIPTION => "W003"
  | .W004_NO_CODE_EXAMPLES => "W004"
  | .W005_CODE_NO_LANGUAGE => "W005"
  | .W006_FORMULAIC_DESCRIPTIONS => "W006"
  | .W007_MISSING_VERSION_METADATA => "W007"
  | .W008_SECTION_ORDER_NON_CANONICAL => "W008"
  | .W009_NO_MASTER_INDEX => "W009"
  | .W010_TOKEN_BUDGET_EXCEEDED => "W010"
  | .W011_EMPTY_SECTIONS => "W011"
  | .I001_NO_LLM_INSTRUCTIONS => "I001"
  | .I002_NO_CONCEPT_DEFINITIONS => "I002"
  | .I003_NO_FEW_SHOT_EXAMPLES => "I003"
  | .I004_RELATIVE_URLS_DETECTED => "I004"
  | .I005_TYPE_2_FULL_DETECTED => "I005"
  | .I006_OPTIONAL_SECTIONS_UNMARKED => "I006"
  | .I007_JARGON_WITHOUT_DEFINITION => "I007"

/-- The raw docstring attached to each member (second component of the
enum tuple in `diagnostics.py`), verbatim. -/
def rawDoc : DiagnosticCode → String
  | .E001_NO_H1_TITLE =>
    "No H1 title found. Every llms.txt file MUST begin with exactly one H1 title.\n        Maps to: STR-001 (v0.0.4a). Severity: ERROR.\n        Remediation: Add a single '# Title' as the first line of the file."
  | .E002_MULTIPLE_H1 =>
    "Multiple H1 titles found. The spec requires exactly one H1.\n        Maps to: STR-001 (v0.0.4a). Severity: ERROR.\n        Remediation: Remove all but the first H1 title. Use H2 for section headers."
  | .E003_INVALID_ENCODING =>
    "File is not valid UTF-8 encoding.\n        Maps to: ENC-001 (v0.0.4a). Severity: ERROR.\n        Remediation: Convert the file to UTF-8 encoding. Remove any BOM markers."
  | .E004_INVALID_LINE_ENDINGS =>
    "File uses non-LF line endings (CR or CRLF detected).\n        Maps to: ENC-002 (v0.0.4a). Severity: ERROR.\n        Remediation: Convert line endings to LF (Unix-style). Most editors have this option."
  | .E005_INVALID_MARKDOWN =>
    "File contains invalid Markdown syntax that prevents parsing.\n        Maps to: MD-001 (v0.0.4a). Severity: ERROR.\n        Remediation: Fix Markdown syntax errors. Use a Markdown linter to identify issues."
  | .E006_BROKEN_LINKS =>
    "Section contains links with empty or malformed URLs.\n        Maps to: LNK-002 (v0.0.4a), CHECK-004 (v0.0.4c Ghost File anti-pattern). Severity: ERROR.\n        Remediation: Fix or remove links with empty href values. Ensure all URLs are well-formed."
  | .E007_EMPTY_FILE =>
    "File is empty or contains only whitespace.\n        Maps to: CHECK-001 (v0.0.4c Ghost File anti-pattern). Severity: ERROR.\n        Remediation: Add content to the file. At minimum: H1 title, blockquote, one H2 section."
  | .E008_EXCEEDS_SIZE_LIMIT =>
    "File exceeds the maximum recommended size (>100K tokens).\n        Maps to: SIZ-003 (v0.0.4a), CHECK-003 (v0.0.4c Monolith Monster). Severity: ERROR.\n        Remediation: Decompose into a tiered file strategy (index + full + per-section files)."
  | .W001_MISSING_BLOCKQUOTE =>
    "No blockquote description found after the H1 title.\n        Maps to: STR-002 (v0.0.4a). Severity: WARNING.\n        Note: 55% real-world compliance (v0.0.2 enrichment), so this is a warning, not an error.\n        Remediation: Add a '> description' blockquote immediately after the H1 title."
  | .W002_NON_CANONICAL_SECTION_NAME =>
    "Section name does not match any of the 11 canonical names.\n        Maps to: NAM-001 (v0.0.4a). Severity: WARNING.\n        Remediation: Use canonical names where possible (see CanonicalSectionName enum)."
  | .W003_LINK_MISSING_DESCRIPTION =>
    "Link entry has no description text (bare URL only).\n        Maps to: CNT-004 (v0.0.4b), CHECK-010 (v0.0.4c Link Desert). Severity: WARNING.\n        Remediation: Add a description after the link: '- [Title](url): Description of the page'."
  | .W004_NO_CODE_EXAMPLES =>
    "File contains no code examples (no fenced code blocks found).\n        Maps to: CNT-007 (v0.0.4b). Severity: WARNING.\n        Note: Code examples are the strongest quality predictor (r ~ 0.65, v0.0.2c).\n        Remediation: Add code examples with language specifiers (```python, ```bash, etc.)."
  | .W005_CODE_NO_LANGUAGE =>
    "Code block found without a language specifier.\n        Maps to: CNT-008 (v0.0.4b). Severity: WARNING.\n        Remediation: Add a language identifier after the opening triple backticks."
  | .W006_FORMULAIC_DESCRIPTIONS =>
    "Multiple sections use identical or near-identical description patterns.\n        Maps to: CNT-005 (v0.0.4b), CHECK-015 (v0.0.4c Formulaic Description). Severity: WARNING.\n        Remediation: Write unique, specific descriptions for each section."
  | .W007_MISSING_VERSION_METADATA =>
    "No version or last-updated metadata found in the file.\n        Maps to: CNT-015 (v0.0.4b). Severity: WARNING.\n        Remediation: Add version metadata (e.g., 'Last updated: 2026-02-06')."
  | .W008_SECTION_ORDER_NON_CANONICAL =>
    "Sections do not follow the canonical 10-step ordering.\n        Maps to: STR-004 (v0.0.4a). Severity: WARNING.\n        Remediation: Reorder sections to match canonical sequence (see v0.0.4a §6)."
  | .W009_NO_MASTER_INDEX =>
    "No Master Index found as the first H2 section.\n        Maps to: STR-003 (v0.0.4a), DECISION-010. Severity: WARNING.\n        Note: Files with Master Index achieve 87% vs. 31% LLM success rate.\n        Remediation: Add a Master Index as the first H2 section with navigation links."
  | .W010_TOKEN_BUDGET_EXCEEDED =>
    "File exceeds the recommended token budget for its tier.\n        Maps to: SIZ-001 (v0.0.4a), DECISION-013. Severity: WARNING.\n        Remediation: Trim content to stay within the tier's token budget."
  | .W011_EMPTY_SECTIONS =>
    "One or more sections contain no meaningful content (placeholder text only).\n        Maps to: CHECK-011 (v0.0.4c Blank Canvas anti-pattern). Severity: WARNING.\n        Remediation: Add content or remove empty sections. Placeholder sections waste tokens."
  | .I001_NO_LLM_INSTRUCTIONS =>
    "No LLM Instructions section found.\n        Maps to: CNT-010 (v0.0.4b). Severity: INFO.\n        Note: 0% current adoption (v0.0.2), but strongest quality differentiator.\n        Remediation: Add an LLM Instructions section with positive/negative directives."
  | .I002_NO_CONCEPT_DEFINITIONS =>
    "No structured concept definitions found.\n        Maps to: CNT-013 (v0.0.4b). Severity: INFO.\n        Remediation: Add concept definitions with IDs, relationships, and aliases."
  | .I003_NO_FEW_SHOT_EXAMPLES =>
    "No few-shot Q&A examples found.\n        Maps to: v0.0.1b Gap #2 (P0). Severity: INFO.\n        Remediation: Add intent-tagged Q&A pairs linked to concepts."
  | .I004_RELATIVE_URLS_DETECTED =>
    "Relative URLs found in link entries (may need resolution).\n        Maps to: LNK-003 (v0.0.4a). Severity: INFO.\n        Remediation: Convert relative URLs to absolute or document the base URL."
  | .I005_TYPE_2_FULL_DETECTED =>
    "File classified as Type 2 Full (inline documentation dump, >250 KB).\n        Maps to: Document Type Classification (v0.0.1a enrichment). Severity: INFO.\n        Note: Type 2 files are not spec-conformant but are valid in MCP contexts.\n        Remediation: Consider creating a Type 1 Index companion file."
  | .I006_OPTIONAL_SECTIONS_UNMARKED =>
    "Optional sections not explicitly marked with token estimates.\n        Maps to: DECISION-011 (v0.0.4d). Severity: INFO.\n        Remediation: Mark optional sections so consumers can skip them to save context."
  | .I007_JARGON_WITHOUT_DEFINITION =>
    "Domain-specific jargon used without inline definition.\n        Maps to: CNT-014 (v0.0.4b). Severity: INFO.\n        Remediation: Define jargon inline or link to a concept definition."

/-- The members in declaration order (Python enum iteration order). -/
def members : List DiagnosticCode :=
  [.E001_NO_H1_TITLE, .E002_MULTIPLE_H1, .E003_INVALID_ENCODING,
   .E004_INVALID_LINE_ENDINGS, .E005_INVALID_MARKDOWN, .E006_BROKEN_LINKS,
   .E007_EMPTY_FILE, .E008_EXCEEDS_SIZE_LIMIT, .W001_MISSING_BLOCKQUOTE,
   .W002_NON_CANONICAL_SECTION_NAME, .W003_LINK_MISSING_DESCRIPTION,
   .W004_NO_CODE_EXAMPLES, .W005_CODE_NO_LANGUAGE,
   .W006_FORMULAIC_DESCRIPTIONS, .W007_MISSING_VERSION_METADATA,
   .W008_SECTION_ORDER_NON_CANONICAL, .W009_NO_MASTER_INDEX,
   .W010_TOKEN_BUDGET_EXCEEDED, .W011_EMPTY_SECTIONS,
   .I001_NO_LLM_INSTRUCTIONS, .I002_NO_CONCEPT_DEFINITIONS,
   .I003_NO_FEW_SHOT_EXAMPLES, .I004_RELATIVE_URLS_DETECTED,
   .I005_TYPE_2_FULL_DETECTED, .I006_OPTIONAL_SECTIONS_UNMARKED,
   .I007_JARGON_WITHOUT_DEFINITION]

end DiagnosticCode

namespace DiagnosticCode

/-- The docstring attached to a member by `DiagnosticCode.__new__`, which
stores `doc.strip()` in `__doc__`. -/
def doc (c : DiagnosticCode) : String := pyStrip c.rawDoc

/-- The severity dict of `DiagnosticCode.severity` keyed by the first
character of the code; `none` models the `KeyError` branch. -/
def charSeverity : Char → Option Severity
  | 'E' => some .ERROR
  | 'W' => some .WARNING
  | 'I' => some .INFO
  | _ => none

/-- `DiagnosticCode.severity`: derive severity from the code prefix
(`self.value[0]`). -/
def severity (c : DiagnosticCode) : Option Severity :=
  match c.value.data with
  | ch :: _ => charSeverity ch
  | [] => none

/-- `DiagnosticCode.code_number`: `int(self.value[1:])`. -/
def code_number (c : DiagnosticCode) : Option Nat :=
  pyInt? (pyDrop c.value 1)

/-- `DiagnosticCode.message`: the first line of the docstring, or the
`Diagnostic {value}` fallback when the docstring is empty. -/
def message (c : DiagnosticCode) : String :=
  if c.doc = "" then "Diagnostic " ++ c.value
  else (pySplit c.doc '\n').headD ""

/-- `DiagnosticCode.remediation`: the first docstring line whose stripped
form starts with the `Remediation:` tag, with the tag (12 characters)
sliced off and the remainder stripped; otherwise the fallback sentinel. -/
def remediation (c : DiagnosticCode) : String :=
  if c.doc = "" then "No remediation available."
  else
    match (pySplit c.doc '\n').find? (fun l => pyStartsWith (pyStrip l) "Remediation:") with
    | some l => pyStrip (pyDrop (pyStrip l) 12)
    | none => "No remediation available."

end DiagnosticCode

/-! ## Identifier formats (spec section 6) -/

/-- Exactly three characters, all ASCII digits. -/
def threeDigits : List Char → Bool
  | [a, b, c] => a.isDigit && b.isDigit && c.isDigit
  | _ => false

/-- The diagnostic identifier format of the spec a code value must match:
a letter in E, W, I followed by exactly three digits. -/
def isDiagnosticIdFormat (s : String) : Bool :=
  match s.data with
  | p :: rest => (p == 'E' || p == 'W' || p == 'I') && threeDigits rest
  | [] => false

/-- The anti-pattern identifier format of the spec: `AP-` then one of the
four category tags then `-` then three digits. -/
def isAntiPatternIdFormat (s : String) : Bool :=
  ["AP-CRIT-", "AP-STRUCT-", "AP-CONT-", "AP-STRAT-"].any fun p =>
    pyStartsWith s p && threeDigits (s.data.drop p.data.length)

/-- The check cross-reference format of the spec: `CHECK-` then three
digits. -/
def isCheckIdFormat (s : String) : Bool :=
  pyStartsWith s "CHECK-" && threeDigits (s.data.drop 6)


/-! ## Claim theorems -/

/-- C1: `resolve` first lower-cases and trims its input; an exact alias-table
match on the normalized name wins, otherwise the section whose display value
matches it case-insensitively is returned, otherwise the name is Unresolved
(`none`); in particular `resolve "quickstart"` is Getting Started and
`resolve "Random Heading"` is Unresolved. -/
theorem resolve_alias_first_then_display :
    (∀ s : String, resolve s = resolveNorm (pyStrip (pyLower s))) ∧
    (∀ s : String, ∀ c : CanonicalSectionName,
      lookupAlias (pyStrip (pyLower s)) = some c → resolve s = some c) ∧
    (∀ s : String, lookupAlias (pyStrip (pyLower s)) = none →
      resolve s = displayMatch (pyStrip (pyLower s))) ∧
    resolve "quickstart" = some CanonicalSectionName.GETTING_STARTED ∧
    resolve "Random Heading" = none := by
  refine ⟨fun s => rfl, fun s c h => ?_, fun s h => ?_, by decide, by decide⟩
  · simp [resolve, resolveNorm, h]
  · simp [resolve, resolveNorm, h]

/-- C2: `zoneFor` classifies a token count against the four strictly
increasing absolute thresholds 20000 / 50000 / 100000 / 500000 by the chain
of strict comparisons; in particular `zoneFor 25000 = Good`,
`zoneFor 19999 = Optimal` and `zoneFor 100000 = AntiPattern`. -/
theorem zoneFor_classification :
    (TOKEN_ZONE_OPTIMAL = 20000 ∧ TOKEN_ZONE_GOOD = 50000 ∧
     TOKEN_ZONE_DEGRADATION = 100000 ∧ TOKEN_ZONE_ANTI_PATTERN = 500000) ∧
    (TOKEN_ZONE_OPTIMAL < TOKEN_ZONE_GOOD ∧
     TOKEN_ZONE_GOOD < TOKEN_ZONE_DEGRADATION ∧
     TOKEN_ZONE_DEGRADATION < TOKEN_ZONE_ANTI_PATTERN) ∧
    (∀ n : Nat,
      (zoneFor n = Zone.Optimal ↔ n < TOKEN_ZONE_OPTIMAL) ∧
      (zoneFor n = Zone.Good ↔ TOKEN_ZONE_OPTIMAL ≤ n ∧ n < TOKEN_ZONE_GOOD) ∧
      (zoneFor n = Zone.Degradation ↔
        TOKEN_ZONE_GOOD ≤ n ∧ n < TOKEN_ZONE_DEGRADATION) ∧
      (zoneFor n = Zone.AntiPattern ↔
        TOKEN_ZONE_DEGRADATION ≤ n ∧ n < TOKEN_ZONE_ANTI_PATTERN) ∧
      (zoneFor n = Zone.BeyondAllWindows ↔ TOKEN_ZONE_ANTI_PATTERN ≤ n)) ∧
    zoneFor 25000 = Zone.Good ∧ zoneFor 19999 = Zone.Optimal ∧
    zoneFor 100000 = Zone.AntiPattern := by
  refine ⟨⟨rfl, rfl, rfl, rfl⟩, by decide, fun n => ?_, by decide, by decide,
    by decide⟩
  unfold zoneFor TOKEN_ZONE_OPTIMAL TOKEN_ZONE_GOOD TOKEN_ZONE_DEGRADATION
    TOKEN_ZONE_ANTI_PATTERN
  refine ⟨?_, ?_, ?_, ?_, ?_⟩ <;> (split_ifs <;> simp_all <;> omega)

/-- C3 counterexample: a count exactly at a threshold does not belong to the
lower of the two adjoining zones: 20000 classifies as Good, not Optimal, and
100000 classifies as AntiPattern, not Degradation. -/
theorem zoneFor_threshold_not_lower_zone :
    zoneFor 20000 = Zone.Good ∧ zoneFor 20000 ≠ Zone.Optimal ∧
    zoneFor 100000 = Zone.AntiPattern ∧ zoneFor 100000 ≠ Zone.Degradation := by
  decide

/-- C3 amended: a token count exactly equal to one of the four zone
thresholds is assigned to the upper of the two adjoining zones, since the
chain tests strictly-below each threshold. -/
theorem zoneFor_at_thresholds :
    zoneFor TOKEN_ZONE_OPTIMAL = Zone.Good ∧
    zoneFor TOKEN_ZONE_GOOD = Zone.Degradation ∧
    zoneFor TOKEN_ZONE_DEGRADATION = Zone.AntiPattern ∧
    zoneFor TOKEN_ZONE_ANTI_PATTERN = Zone.BeyondAllWindows := by decide

/-- Helper: the recursive pairwise check agrees with `List.Chain'` on `<`. -/
theorem strictlyIncreasingB_iff_chain (l : List Nat) :
    strictlyIncreasingB l = true ↔ List.Chain' (· < ·) l := by
  induction l with
  | nil => simp [strictlyIncreasingB]
  | cons a t ih =>
    cases t with
    | nil => simp [strictlyIncreasingB]
    | cons b t' =>
      simp only [strictlyIncreasingB, Bool.and_eq_true, decide_eq_true_eq,
        List.chain'_cons] at ih ⊢
      rw [ih]

/-- C4: `validateSequence` ignores Optional entries and reports a violation
exactly when the ranks of consecutive non-Optional sections are not strictly
increasing; in particular `[GettingStarted, MasterIndex]` is a violation and
`[MasterIndex, Optional, GettingStarted]` is not. -/
theorem validateSequence_spec :
    (∀ l : List CanonicalSectionName,
      validateSequence l = true ↔ ¬ List.Chain' (· < ·) (sequenceRanks l)) ∧
    (∀ l₁ l₂ : List CanonicalSectionName,
      validateSequence (l₁ ++ CanonicalSectionName.OPTIONAL :: l₂) =
        validateSequence (l₁ ++ l₂)) ∧
    validateSequence
      [CanonicalSectionName.GETTING_STARTED,
       CanonicalSectionName.MASTER_INDEX] = true ∧
    validateSequence
      [CanonicalSectionName.MASTER_INDEX, CanonicalSectionName.OPTIONAL,
       CanonicalSectionName.GETTING_STARTED] = false := by
  refine ⟨fun l => ?_, fun l₁ l₂ => ?_, by decide, by decide⟩
  · rw [validateSequence, Bool.not_eq_true', ← Bool.not_eq_true,
      strictlyIncreasingB_iff_chain]
  · simp [validateSequence, sequenceRanks, List.filter_append,
      List.filter_cons]

/-- C5: there are exactly 11 canonical sections; the canonical-order table
lists exactly the 10 non-Optional sections once each, its ranks are a
permutation of 1..10, and Optional has no rank. -/
theorem canonical_order_invariants :
    Fintype.card CanonicalSectionName = 11 ∧
    CanonicalSectionName.members.length = 11 ∧
    CanonicalSectionName.members.Nodup ∧
    (∀ c : CanonicalSectionName, c ∈ CanonicalSectionName.members) ∧
    CANONICAL_SECTION_ORDER.length = 10 ∧
    (CANONICAL_SECTION_ORDER.map Prod.fst).Nodup ∧
    (∀ c : CanonicalSectionName, (orderOf c).isSome ↔ c ≠ .OPTIONAL) ∧
    List.Perm (CANONICAL_SECTION_ORDER.map Prod.snd)
      [1, 2, 3, 4, 5, 6, 7, 8, 9, 10] ∧
    orderOf CanonicalSectionName.OPTIONAL = none := by
  refine ⟨?_, ?_, ?_, ?_, ?_, ?_, ?_, ?_, ?_⟩ <;> decide

/-- C10: no alias-table key equals the lower-cased display value of any
canonical section, so for a display value in any letter case the alias-first
resolution agrees with display-value matching: it resolves to that very
section, never to a different one through an alias. -/
theorem alias_keys_shadow_free :
    (∀ p ∈ SECTION_NAME_ALIASES, ∀ c : CanonicalSectionName,
      p.1 ≠ pyLower c.value) ∧
    (∀ c : CanonicalSectionName, lookupAlias (pyLower c.value) = none) ∧
    (∀ c : CanonicalSectionName, ∀ s : String,
      pyStrip (pyLower s) = pyLower c.value → resolve s = some c) ∧
    (∀ c : CanonicalSectionName, resolve c.value = some c) := by
  refine ⟨by decide, by decide, fun c s h => ?_, by decide⟩
  show resolveNorm (pyStrip (pyLower s)) = some c
  rw [h]
  cases c <;> decide

/-- C6: the severity of a diagnostic code is determined solely by the first
character of its identifier through the total mapping E to Error, W to
Warning, I to Info, and its number is the trailing digits parsed as an
unsigned integer; in particular W011 has severity Warning and number 11. -/
theorem diagnostic_severity_and_number :
    (∀ c : DiagnosticCode,
      c.severity = DiagnosticCode.charSeverity (c.value.data.headD ' ')) ∧
    (∀ c : DiagnosticCode, c.severity ≠ none) ∧
    DiagnosticCode.charSeverity 'E' = some Severity.ERROR ∧
    DiagnosticCode.charSeverity 'W' = some Severity.WARNING ∧
    DiagnosticCode.charSeverity 'I' = some Severity.INFO ∧
    (∀ c : DiagnosticCode, c.code_number = pyInt? (pyDrop c.value 1)) ∧
    DiagnosticCode.W011_EMPTY_SECTIONS.severity = some Severity.WARNING ∧
    DiagnosticCode.W011_EMPTY_SECTIONS.code_number = some 11 := by
  refine ⟨?_, ?_, ?_, ?_, ?_, ?_, ?_, ?_⟩ <;> decide

/-- C7: every diagnostic code of the registry has a non-empty, single-line
message and a non-empty remediation different from the fallback sentinel. -/
theorem diagnostic_message_remediation :
    ∀ c : DiagnosticCode,
      c.message ≠ "" ∧ '\n' ∉ c.message.data ∧
      c.remediation ≠ "" ∧ c.remediation ≠ "No remediation available." := by
  decide

/-- C8: the diagnostic registry holds exactly 26 codes, 8 Error, 11 Warning
and 7 Info, and every identifier is a letter in E, W, I followed by exactly
three digits. -/
theorem diagnostic_registry_counts :
    DiagnosticCode.members.length = 26 ∧
    DiagnosticCode.members.Nodup ∧
    (∀ c : DiagnosticCode, c ∈ DiagnosticCode.members) ∧
    (DiagnosticCode.members.filter
      fun c => c.severity = some Severity.ERROR).length = 8 ∧
    (DiagnosticCode.members.filter
      fun c => c.severity = some Severity.WARNING).length = 11 ∧
    (DiagnosticCode.members.filter
      fun c => c.severity = some Severity.INFO).length = 7 ∧
    (∀ c : DiagnosticCode, isDiagnosticIdFormat c.value = true) := by
  refine ⟨?_, ?_, ?_, ?_, ?_, ?_, ?_⟩ <;> decide

/-- C9: the anti-pattern registry is an ordered sequence of exactly 22
entries with pairwise distinct ids, 4 Critical, 5 Structural, 9 Content and
4 Strategic; every id is `AP-`, a category tag, `-` and three digits, and
every entry cross-references `CHECK-` and three digits. -/
theorem anti_pattern_registry_invariants :
    ANTI_PATTERN_REGISTRY.length = 22 ∧
    (ANTI_PATTERN_REGISTRY.map AntiPatternEntry.id).Nodup ∧
    (ANTI_PATTERN_REGISTRY.filter
      fun e => e.category = AntiPatternCategory.CRITICAL).length = 4 ∧
    (ANTI_PATTERN_REGISTRY.filter
      fun e => e.category = AntiPatternCategory.STRUCTURAL).length = 5 ∧
    (ANTI_PATTERN_REGISTRY.filter
      fun e => e.category = AntiPatternCategory.CONTENT).length = 9 ∧
    (ANTI_PATTERN_REGISTRY.filter
      fun e => e.category = AntiPatternCategory.STRATEGIC).length = 4 ∧
    (∀ e ∈ ANTI_PATTERN_REGISTRY, isAntiPatternIdFormat e.id.value = true) ∧
    (∀ e ∈ ANTI_PATTERN_REGISTRY, isCheckIdFormat e.check_id = true) := by
  refine ⟨?_, ?_, ?_, ?_, ?_, ?_, ?_, ?_⟩ <;> decide

end DocStratum
